import Mathlib

/-!
# Advisory chat route (`backend/Routes/chatRoutes.js`)

A shallow embedding of the four functions of the route file:
`getLatLon`, `getSoilData`, `getWeather` and the `POST /` handler.

* JavaScript values are the type `JSVal`; the operators the source uses on
  them (`.`, `?.`, `[0]`, `||`, `!`, `> 0`, destructuring, the `ToString` of a
  template literal) are Lean functions, a thrown `TypeError` being an `Except`
  error.
* The outside world (the database lookup and the four HTTP services) is a
  record `World` of outcomes, one function per service, keyed by what the
  request carries. A function that calls a service returns its value together
  with the calls it made (`Traced`).
* `try { ... } catch { ... }` is a `match` on the `Except` result of the body.
-/

namespace ChatRoutes

/-! ## JavaScript values -/

/-- A JavaScript string: the list of its UTF-16 code units. -/
abbrev JSString := List Nat

/-- The JavaScript string of a text: characters beyond the basic plane become a
surrogate pair. -/
def utf16 (s : String) : JSString :=
  s.data.flatMap fun c =>
    if c.toNat < 65536 then [c.toNat]
    else [55296 + (c.toNat - 65536) / 1024, 56320 + (c.toNat - 65536) % 1024]

/-- JavaScript values as they reach this file: the results of `JSON.parse`
(`null`, booleans, numbers, strings, arrays, objects) and `undefined`, which
property access produces. A finite number is a rational (every finite double
is one; `-0` is identified with `0`, both being falsy and both printing as
`0`); `inf` and `nan` are the non-finite numbers. An object is the list of its
own properties; the property names this file looks up are plain text, so a
name is a `String`. -/
inductive JSVal where
  | undefined : JSVal
  | null : JSVal
  | bool (b : Bool) : JSVal
  | num (q : ℚ) : JSVal
  | inf (negative : Bool) : JSVal
  | nan : JSVal
  | str (s : JSString) : JSVal
  | arr (xs : List JSVal) : JSVal
  | obj (fields : List (String × JSVal)) : JSVal

/-- The errors a JavaScript expression of this file can throw. -/
inductive JSErr where
  | typeError : JSErr
  | rejected : JSErr

namespace JSVal

/-- The values `null` and `undefined`: property access on them throws. -/
def nullish : JSVal → Bool
  | undefined => true
  | null => true
  | _ => false

/-- ECMAScript `ToBoolean`: `undefined`, `null`, `false`, `0`, `NaN` and the
empty string are falsy, everything else is truthy. -/
def truthy : JSVal → Bool
  | undefined => false
  | null => false
  | bool b => b
  | num q => decide (q ≠ 0)
  | inf _ => true
  | nan => false
  | str s => !s.isEmpty
  | arr _ => true
  | obj _ => true

/-- The operator `a || b`: `a` when it is truthy, `b` otherwise. -/
def orElse (a b : JSVal) : JSVal :=
  if a.truthy then a else b

/-- Own-property lookup `v.k` for a value that is not nullish, for the
(non-numeric) property names of this file. Arrays and strings own `length`, a
string counting its code units; numbers and booleans own nothing; none of the
names used is inherited from a prototype. On a nullish value the lookup is
`undefined` (it is only reached under `?.`, see `dot` for the throwing
access). -/
def getField (v : JSVal) (k : String) : JSVal :=
  match v with
  | obj fs => (fs.lookup k).getD undefined
  | arr xs => if k = "length" then num xs.length else undefined
  | str s => if k = "length" then num s.length else undefined
  | _ => undefined

/-- Indexed lookup `v[i]` for a value that is not nullish: the element of an
array, the one-unit string of a string, the property named by the decimal
digits of `i` of an object. -/
def getIndex (v : JSVal) (i : Nat) : JSVal :=
  match v with
  | obj fs => (fs.lookup (toString i)).getD undefined
  | arr xs => xs.getD i undefined
  | str s =>
    match s.get? i with
    | some u => str [u]
    | none => undefined
  | _ => undefined

/-- The access `v.k`: a `TypeError` on `null` and `undefined`. -/
def dot (v : JSVal) (k : String) : Except JSErr JSVal :=
  if v.nullish then .error .typeError else .ok (v.getField k)

/-- The access `v[i]`: a `TypeError` on `null` and `undefined`. -/
def dotIdx (v : JSVal) (i : Nat) : Except JSErr JSVal :=
  if v.nullish then .error .typeError else .ok (v.getIndex i)

/-- The optional access `v?.k`: `undefined` on `null` and `undefined`. -/
def optDot (v : JSVal) (k : String) : JSVal :=
  if v.nullish then undefined else v.getField k

/-- The optional access `v?.[i]`: `undefined` on `null` and `undefined`. -/
def optIdx (v : JSVal) (i : Nat) : JSVal :=
  if v.nullish then undefined else v.getIndex i

end JSVal

open JSVal

/-- The parts of the language runtime that are left abstract: `numToString` is
`Number::toString` of a finite number that is not a safe integer (the shortest
digits that read back as the same double), `stringPositive s` is whether the
number denoted by the string `s` is greater than zero. -/
structure Host where
  numToString : ℚ → JSString
  stringPositive : JSString → Bool

/-- `Number::toString` of a finite number: an integer of magnitude below
`2 ^ 53` prints as its decimal digits. -/
def renderNum (h : Host) (q : ℚ) : JSString :=
  if q.den = 1 ∧ q.num.natAbs < 2 ^ 53 then utf16 (toString q.num) else h.numToString q

/-- The strings of a list joined with a separator, as `Array.prototype.join`
concatenates them. -/
def joinWith (sep : JSString) : List JSString → JSString
  | [] => []
  | [x] => x
  | x :: y :: rest => x ++ sep ++ joinWith sep (y :: rest)

mutual
/-- ECMAScript `ToString`, as a template literal applies it. An array is
joined with commas (`Array.prototype.toString`). An object prints through
`Object.prototype.toString` unless it owns a property `toString`: a parsed
JSON value is never callable, so neither that property nor `valueOf` yields a
primitive and the conversion throws a `TypeError`. -/
def render (h : Host) : JSVal → Except JSErr JSString
  | .undefined => .ok (utf16 "undefined")
  | .null => .ok (utf16 "null")
  | .bool b => .ok (if b then utf16 "true" else utf16 "false")
  | .num q => .ok (renderNum h q)
  | .inf negative => .ok (if negative then utf16 "-Infinity" else utf16 "Infinity")
  | .nan => .ok (utf16 "NaN")
  | .str s => .ok s
  | .arr xs => (renderElems h xs).map (joinWith (utf16 ","))
  | .obj fs =>
    if (fs.lookup "toString").isSome then .error .typeError
    else .ok (utf16 "[object Object]")
/-- The strings of the elements of an array, as `join` takes them: the empty
string for `undefined` and `null`, `ToString` for the others, in order. -/
def renderElems (h : Host) : List JSVal → Except JSErr (List JSString)
  | [] => .ok []
  | .undefined :: xs => (renderElems h xs).map (fun rest => [] :: rest)
  | .null :: xs => (renderElems h xs).map (fun rest => [] :: rest)
  | x :: xs =>
    match render h x with
    | .error e => .error e
    | .ok s => (renderElems h xs).map (fun rest => s :: rest)
end

/-- The comparison `v > 0`. `ToNumber` of `undefined` is `NaN`, of `null` is
`0`, of `true` is `1`; a string is read as a number; an array goes through its
`ToString`; an object is `NaN` after `Object.prototype.toString`, or throws as
in `render`. -/
def gtZero (h : Host) : JSVal → Except JSErr Bool
  | .num q => .ok (decide (0 < q))
  | .inf negative => .ok (!negative)
  | .nan => .ok false
  | .undefined => .ok false
  | .null => .ok false
  | .bool b => .ok b
  | .str s => .ok (h.stringPositive s)
  | .arr xs => (render h (.arr xs)).map h.stringPositive
  | .obj fs => if (fs.lookup "toString").isSome then .error .typeError else .ok false

/-! ## The outside world -/

/-- Outcome of `await fetch(url)` followed by `await res.json()`: the fetch
rejects, or the body does not parse, or the parsed value. -/
inductive FetchResult where
  | fetchThrows : FetchResult
  | parseThrows : FetchResult
  | body (data : JSVal) : FetchResult

/-- The farmer document, read through `farmer.city`, `farmer.state` and
`farmer.crop`. -/
structure Farmer where
  city : JSVal
  state : JSVal
  crop : JSVal

/-- Outcome of `await Farmer.findOne({ email })`: a rejection, `null`, or a
document. -/
inductive LookupResult where
  | throws : LookupResult
  | notFound : LookupResult
  | found (farmer : Farmer) : LookupResult

/-- The collaborators of the route: the profile lookup by email; the
geocoding service by the city and the state written into its URL; the soil and
the weather service by the latitude and the longitude written into their URL;
the language-model service by the system message and the question posted. -/
structure World where
  findOne : JSVal → LookupResult
  geocode : JSString → JSString → FetchResult
  soilgrids : JSString → JSString → FetchResult
  openweather : JSString → JSString → FetchResult
  groq : JSString → JSVal → FetchResult

/-- One message of the conversation posted to the language model. -/
structure Message where
  role : String
  content : JSVal

/-- An outbound call, with the arguments that vary: for the three enrichment
services the texts interpolated into the URL. -/
inductive Call where
  | findOne (email : JSVal) : Call
  | geocode (city state : JSString) : Call
  | soil (lat lon : JSString) : Call
  | weather (lat lon : JSString) : Call
  | llm (messages : List Message) : Call

/-- Whether the call goes to one of the four HTTP services (everything but the
profile lookup). -/
def Call.downstream : Call → Bool
  | .findOne _ => false
  | _ => true

/-- A value together with the outbound calls made while computing it, in
order. -/
structure Traced (α : Type) where
  value : α
  calls : List Call

/-- The JSON value of a fetch that produced one; a rejection otherwise. -/
def FetchResult.json : FetchResult → Except JSErr JSVal
  | .fetchThrows => .error .rejected
  | .parseThrows => .error .rejected
  | .body data => .ok data

/-! ## `getLatLon` (lines 5-18) -/

/-- The fallback coordinates `{ lat: 0, lng: 0 }` (line 17). -/
def fallbackLatLon : JSVal :=
  .obj [("lat", .num 0), ("lng", .num 0)]

/-- Lines 8-9 of `getLatLon`: the URL is built from `city` and `state`, which
can throw before anything is sent; then the request is made and its body
parsed. -/
def geocodeRequest (h : Host) (w : World) (city state : JSVal) : Traced (Except JSErr JSVal) :=
  match render h city with
  | .error e => { value := .error e, calls := [] }
  | .ok c =>
    match render h state with
    | .error e => { value := .error e, calls := [] }
    | .ok s => { value := (w.geocode c s).json, calls := [Call.geocode c s] }

/-- Lines 10-12 of `getLatLon`: `some v` when the `try` block returns `v`,
`none` when it falls through to the code after the `catch`. -/
def firstGeometry (h : Host) (data : JSVal) : Except JSErr (Option JSVal) := do
  let results ← data.dot "results"
  let len ← results.dot "length"
  if (← gtZero h len) then
    let first ← results.dotIdx 0
    let geometry ← first.dot "geometry"
    pure (some geometry)
  else
    pure none

/-- The function `getLatLon(city, state)`: the `catch` block only logs, so a
throw and a fall-through both reach the fallback return of line 17. -/
def getLatLon (h : Host) (w : World) (city state : JSVal) : Traced JSVal :=
  let fetched := geocodeRequest h w city state
  { value :=
      match fetched.value >>= firstGeometry h with
      | .ok (some geometry) => geometry
      | .ok none => fallbackLatLon
      | .error _ => fallbackLatLon
    calls := fetched.calls }

/-! ## `getSoilData` (lines 21-38) -/

/-- The object `{ soilType, pH, organicCarbon }`. -/
structure SoilSample where
  soilType : JSVal
  pH : JSVal
  organicCarbon : JSVal

/-- The object `{ temp, humidity, description }`. -/
structure WeatherSnapshot where
  temp : JSVal
  humidity : JSVal
  description : JSVal

/-- The object returned by the `catch` block of `getSoilData` (lines 32-36). -/
def fallbackSoil : SoilSample :=
  { soilType := .str (utf16 "Loam"), pH := .num 6.5, organicCarbon := .num 1.2 }

/-- Lines 23-24 of `getSoilData`: the URL is built from `lat` and `lon`, then
the request is made and its body parsed. -/
def soilRequest (h : Host) (w : World) (lat lon : JSVal) : Traced (Except JSErr JSVal) :=
  match render h lat with
  | .error e => { value := .error e, calls := [] }
  | .ok a =>
    match render h lon with
    | .error e => { value := .error e, calls := [] }
    | .ok o => { value := (w.soilgrids a o).json, calls := [Call.soil a o] }

/-- Lines 25-29 of `getSoilData`: the object built from the parsed body. -/
def soilSampleOf (data : JSVal) : Except JSErr SoilSample := do
  let soil ← data.dot "soil"
  let phh2o ← data.dot "phh2o"
  let organiccarbon ← data.dot "organiccarbon"
  pure {
    soilType := orElse (optDot (optIdx soil 0) "name") (.str (utf16 "Unknown"))
    pH := orElse (optIdx (optDot phh2o "mean") 0) (.str (utf16 "Unknown"))
    organicCarbon := orElse (optIdx (optDot organiccarbon "mean") 0) (.str (utf16 "Unknown")) }

/-- The function `getSoilData(lat, lon)`. -/
def getSoilData (h : Host) (w : World) (lat lon : JSVal) : Traced SoilSample :=
  let fetched := soilRequest h w lat lon
  { value :=
      match fetched.value >>= soilSampleOf with
      | .ok sample => sample
      | .error _ => fallbackSoil
    calls := fetched.calls }

/-! ## `getWeather` (lines 41-59) -/

/-- The object returned by the `catch` block of `getWeather` (lines 53-57). -/
def fallbackWeather : WeatherSnapshot :=
  { temp := .num 30, humidity := .num 50, description := .str (utf16 "Clear") }

/-- Lines 44-45 of `getWeather`: the URL is built from `lat` and `lon`, then
the request is made and its body parsed. -/
def weatherRequest (h : Host) (w : World) (lat lon : JSVal) : Traced (Except JSErr JSVal) :=
  match render h lat with
  | .error e => { value := .error e, calls := [] }
  | .ok a =>
    match render h lon with
    | .error e => { value := .error e, calls := [] }
    | .ok o => { value := (w.openweather a o).json, calls := [Call.weather a o] }

/-- Lines 46-50 of `getWeather`: the object built from the parsed body. -/
def weatherSnapshotOf (data : JSVal) : Except JSErr WeatherSnapshot := do
  let main ← data.dot "main"
  let weather ← data.dot "weather"
  pure {
    temp := orElse (optDot main "temp") (.num 0)
    humidity := orElse (optDot main "humidity") (.num 0)
    description := orElse (optDot (optIdx weather 0) "description") (.str (utf16 "Unknown")) }

/-- The function `getWeather(lat, lon)`. -/
def getWeather (h : Host) (w : World) (lat lon : JSVal) : Traced WeatherSnapshot :=
  let fetched := weatherRequest h w lat lon
  { value :=
      match fetched.value >>= weatherSnapshotOf with
      | .ok snapshot => snapshot
      | .error _ => fallbackWeather
    calls := fetched.calls }

/-! ## The `POST /` handler (lines 62-114) -/

/-- The text of the template literal of lines 78-84 around the nine
interpolated strings. -/
def promptText (city state crop temp description humidity soilType pH organicCarbon : JSString) :
    JSString :=
  utf16 "\n      You are an AI assistant for a farmer.\n      Farmer is located in "
    ++ city ++ utf16 ", " ++ state ++ utf16 ", growing "
    ++ crop ++ utf16 ".\n      Current weather: Temperature "
    ++ temp ++ utf16 "°C, " ++ description ++ utf16 ", Humidity "
    ++ humidity ++ utf16 "%.\n      Soil data: Soil type "
    ++ soilType ++ utf16 ", pH " ++ pH ++ utf16 ", Organic Carbon "
    ++ organicCarbon
    ++ utf16 ".\n      Answer in English and give practical farming advice based on location, soil, weather, and crop type.\n    "

/-- The template literal of lines 78-84: each interpolated expression goes
through `ToString`, in the order of the text, and the first that throws ends
the evaluation. -/
def systemMessage (h : Host) (farmer : Farmer) (weather : WeatherSnapshot) (soil : SoilSample) :
    Except JSErr JSString := do
  let city ← render h farmer.city
  let state ← render h farmer.state
  let crop ← render h farmer.crop
  let temp ← render h weather.temp
  let description ← render h weather.description
  let humidity ← render h weather.humidity
  let soilType ← render h soil.soilType
  let pH ← render h soil.pH
  let organicCarbon ← render h soil.organicCarbon
  pure (promptText city state crop temp description humidity soilType pH organicCarbon)

/-- The `messages` array of lines 95-98. -/
def llmMessages (system : JSString) (question : JSVal) : List Message :=
  [{ role := "system", content := .str system }, { role := "user", content := question }]

/-- The expression `data.choices[0].message.content` (line 105). -/
def answerOf (data : JSVal) : Except JSErr JSVal := do
  let choices ← data.dot "choices"
  let first ← choices.dotIdx 0
  let message ← first.dot "message"
  message.dot "content"

/-- An HTTP response: the status set by `res.status` (200 when it is not
called) and the object handed to `res.json`. -/
structure Response where
  status : Nat
  body : JSVal

/-- The object of a soil sample, as embedded in the response body. -/
def SoilSample.toJS (s : SoilSample) : JSVal :=
  .obj [("soilType", s.soilType), ("pH", s.pH), ("organicCarbon", s.organicCarbon)]

/-- The object of a weather snapshot, as embedded in the response body. -/
def WeatherSnapshot.toJS (s : WeatherSnapshot) : JSVal :=
  .obj [("temp", s.temp), ("humidity", s.humidity), ("description", s.description)]

/-- The response of line 68. -/
def notFoundResponse : Response :=
  { status := 404, body := .obj [("error", .str (utf16 "Farmer not found"))] }

/-- The response of line 112. -/
def failureResponse : Response :=
  { status := 500, body := .obj [("error", .str (utf16 "Failed to get AI response"))] }

/-- The response of lines 104-108. -/
def okResponse (answer : JSVal) (soil : SoilSample) (weather : WeatherSnapshot) : Response :=
  { status := 200, body := .obj [("answer", answer), ("soil", soil.toJS), ("weather", weather.toJS)] }

/-- What one run of the handler does: the response it sends and the outbound
calls it made, in order. -/
structure Run where
  response : Response
  calls : List Call

/-- The handler of `router.post("/")` on a request whose `req.body` is `body`.
Every `throw` inside the `try` of lines 63-109 lands in the `catch` of lines
110-113, which answers with `failureResponse`; the calls made before the throw
stay made. -/
def handler (h : Host) (w : World) (body : JSVal) : Run :=
  -- line 64: destructuring `req.body`
  if body.nullish then { response := failureResponse, calls := [] } else
  let email := body.getField "email"
  let question := body.getField "question"
  -- line 67
  let log1 := [Call.findOne email]
  match w.findOne email with
  | .throws => { response := failureResponse, calls := log1 }
  -- line 68
  | .notFound => { response := notFoundResponse, calls := log1 }
  | .found farmer =>
    -- line 71: the call, then destructuring its result
    let geometry := getLatLon h w farmer.city farmer.state
    let log2 := log1 ++ geometry.calls
    if geometry.value.nullish then { response := failureResponse, calls := log2 } else
    let lat := geometry.value.getField "lat"
    let lng := geometry.value.getField "lng"
    -- lines 74-75
    let soil := getSoilData h w lat lng
    let weather := getWeather h w lat lng
    let log3 := log2 ++ soil.calls ++ weather.calls
    -- lines 78-84: the template literal can throw
    match systemMessage h farmer weather.value soil.value with
    | .error _ => { response := failureResponse, calls := log3 }
    | .ok system =>
      -- lines 87-100
      let log4 := log3 ++ [Call.llm (llmMessages system question)]
      -- lines 102-108
      match (w.groq system question).json >>= answerOf with
      | .error _ => { response := failureResponse, calls := log4 }
      | .ok answer => { response := okResponse answer soil.value weather.value, calls := log4 }

/-! ## Fixtures for the worked examples -/

/-- Up to `fuel` decimal digits of the fraction `r / d`, for `r < d`. -/
def fractionDigits : Nat → Nat → Nat → JSString
  | 0, _, _ => []
  | fuel + 1, r, d =>
    if r = 0 then [] else (48 + r * 10 / d) :: fractionDigits fuel (r * 10 % d) d

/-- A host for the worked examples. A number prints as its sign, its integer
part and up to seventeen digits of its fraction, which is what JavaScript
prints for a number of moderate size with a short decimal expansion, such as
`7.1`. A string of decimal digits is greater than zero when one of its digits
is not `0`; signs, fractions, exponents and blanks are not read. -/
def fixtureHost : Host where
  numToString := fun q =>
    (if q < 0 then utf16 "-" else []) ++ utf16 (toString (q.num.natAbs / q.den))
      ++ (if q.num.natAbs % q.den = 0 then []
          else utf16 "." ++ fractionDigits 17 (q.num.natAbs % q.den) q.den)
  stringPositive := fun s => s.all (fun u => 48 ≤ u && u ≤ 57) && s.any (fun u => u != 48)

/-- The profile of the end-to-end example of the specification. -/
def fixtureFarmer : Farmer :=
  { city := .str (utf16 "Springfield"), state := .str (utf16 "IL"), crop := .str (utf16 "corn") }

/-- A request body `{ email, question }`. -/
def fixtureBody : JSVal :=
  .obj [("email", .str (utf16 "farmer@example.org")),
        ("question", .str (utf16 "When should I sow?"))]

/-- A geocoding answer with one result. -/
def fixtureGeoBody : JSVal :=
  .obj [("results", .arr [.obj [("geometry", .obj [("lat", .num 40), ("lng", .num (-89))])]])]

/-- A soil answer with all three values. -/
def fixtureSoilBody : JSVal :=
  .obj [("soil", .arr [.obj [("name", .str (utf16 "Clay"))]]),
        ("phh2o", .obj [("mean", .arr [.num 7.1])]),
        ("organiccarbon", .obj [("mean", .arr [.num 2.4])])]

/-- A weather answer with all three values. -/
def fixtureWeatherBody : JSVal :=
  .obj [("main", .obj [("temp", .num 21), ("humidity", .num 64)]),
        ("weather", .arr [.obj [("description", .str (utf16 "light rain"))]])]

/-- A language-model answer with one choice. -/
def fixtureLLMBody : JSVal :=
  .obj [("choices",
    .arr [.obj [("message", .obj [("content", .str (utf16 "Sow after the rain."))])]])]

/-- A world in which the profile exists and every service answers. -/
def fixtureWorld : World where
  findOne := fun _ => .found fixtureFarmer
  geocode := fun _ _ => .body fixtureGeoBody
  soilgrids := fun _ _ => .body fixtureSoilBody
  openweather := fun _ _ => .body fixtureWeatherBody
  groq := fun _ _ => .body fixtureLLMBody

/-- A soil answer whose mean pH is the number zero. -/
def fixtureZeroPHBody : JSVal :=
  .obj [("soil", .arr [.obj [("name", .str (utf16 "Clay"))]]),
        ("phh2o", .obj [("mean", .arr [.num 0])]),
        ("organiccarbon", .obj [("mean", .arr [.num 2.4])])]

/-- A soil answer whose arrays are all empty. -/
def fixtureEmptySoilBody : JSVal :=
  .obj [("soil", .arr []), ("phh2o", .obj [("mean", .arr [])]),
        ("organiccarbon", .obj [("mean", .arr [])])]

/-- A weather answer without `main` and with an empty `weather` array. -/
def fixtureEmptyWeatherBody : JSVal :=
  .obj [("weather", .arr [])]

/-- A world whose soil and weather services answer with the given bodies. -/
def fixtureWorldWith (soilBody weatherBody : JSVal) : World :=
  { fixtureWorld with
    soilgrids := fun _ _ => .body soilBody
    openweather := fun _ _ => .body weatherBody }

/-- A geocoding answer whose first result has no `geometry`. -/
def fixtureNoGeometryBody : JSVal :=
  .obj [("results", .arr [.obj []])]

/-- A geocoding answer whose first result has a `geometry` without `lat` and
`lng`. -/
def fixtureEmptyGeometryBody : JSVal :=
  .obj [("results", .arr [.obj [("geometry", .obj [])]])]

/-- A world whose geocoding fetch has the given outcome. -/
def fixtureWorldGeoResult (result : FetchResult) : World :=
  { fixtureWorld with geocode := fun _ _ => result }

/-- A world whose language-model fetch has the given outcome. -/
def fixtureWorldLLM (result : FetchResult) : World :=
  { fixtureWorld with groq := fun _ _ => result }

/-- A language-model answer whose first choice has a message without
`content`. -/
def fixtureNoContentBody : JSVal :=
  .obj [("choices", .arr [.obj [("message", .obj [])]])]

/-- A soil answer whose soil name is an object owning a property `toString`,
which `ToString` cannot convert. -/
def fixtureOpaqueNameBody : JSVal :=
  .obj [("soil", .arr [.obj [("name", .obj [("toString", .num 1)])]]),
        ("phh2o", .obj [("mean", .arr [.num 7.1])]),
        ("organiccarbon", .obj [("mean", .arr [.num 2.4])])]

/-- The soil sample of the fixture soil answer. -/
def fixtureSoil : SoilSample :=
  { soilType := .str (utf16 "Clay"), pH := .num 7.1, organicCarbon := .num 2.4 }

/-- The weather snapshot of the fixture weather answer. -/
def fixtureWeather : WeatherSnapshot :=
  { temp := .num 21, humidity := .num 64, description := .str (utf16 "light rain") }

/-- The prompt composed for the fixture profile, soil sample and weather
snapshot. -/
def fixturePrompt : JSString :=
  utf16 "\n      You are an AI assistant for a farmer.\n      Farmer is located in Springfield, IL, growing corn.\n      Current weather: Temperature 21°C, light rain, Humidity 64%.\n      Soil data: Soil type Clay, pH 7.1, Organic Carbon 2.4.\n      Answer in English and give practical farming advice based on location, soil, weather, and crop type.\n    "

/-! ## Auxiliary lemmas on the operators -/

theorem JSVal.optDot_eq (v : JSVal) (k : String) : v.optDot k = v.getField k := by
  cases v <;> rfl

theorem JSVal.optIdx_eq (v : JSVal) (i : Nat) : v.optIdx i = v.getIndex i := by
  cases v <;> rfl

theorem JSVal.dot_defined (v : JSVal) (k : String) (hv : v.nullish = false) :
    v.dot k = .ok (v.getField k) := by
  simp [JSVal.dot, hv]

theorem JSVal.dot_nullish (v : JSVal) (k : String) (hv : v.nullish = true) :
    v.dot k = .error .typeError := by
  simp [JSVal.dot, hv]

theorem JSVal.dotIdx_defined (v : JSVal) (i : Nat) (hv : v.nullish = false) :
    v.dotIdx i = .ok (v.getIndex i) := by
  simp [JSVal.dotIdx, hv]

theorem JSVal.dotIdx_nullish (v : JSVal) (i : Nat) (hv : v.nullish = true) :
    v.dotIdx i = .error .typeError := by
  simp [JSVal.dotIdx, hv]

theorem JSVal.nullish_of_truthy (v : JSVal) (hv : v.truthy = true) : v.nullish = false := by
  cases v <;> simp_all [JSVal.truthy, JSVal.nullish]

theorem JSVal.orElse_defined (a b : JSVal) (hb : b.nullish = false) :
    (orElse a b).nullish = false := by
  unfold orElse
  split
  · exact JSVal.nullish_of_truthy a (by assumption)
  · exact hb

theorem JSVal.orElse_truthy (a b : JSVal) (ha : a.truthy = true) : orElse a b = a := by
  simp [orElse, ha]

/-! ## Auxiliary lemmas on the requests -/

theorem geocodeRequest_sent (h : Host) (w : World) (city state : JSVal) (c s : JSString)
    (hcity : render h city = .ok c) (hstate : render h state = .ok s) :
    geocodeRequest h w city state
      = { value := (w.geocode c s).json, calls := [Call.geocode c s] } := by
  simp [geocodeRequest, hcity, hstate]

theorem soilRequest_sent (h : Host) (w : World) (lat lon : JSVal) (a o : JSString)
    (hlat : render h lat = .ok a) (hlon : render h lon = .ok o) :
    soilRequest h w lat lon = { value := (w.soilgrids a o).json, calls := [Call.soil a o] } := by
  simp [soilRequest, hlat, hlon]

theorem weatherRequest_sent (h : Host) (w : World) (lat lon : JSVal) (a o : JSString)
    (hlat : render h lat = .ok a) (hlon : render h lon = .ok o) :
    weatherRequest h w lat lon
      = { value := (w.openweather a o).json, calls := [Call.weather a o] } := by
  simp [weatherRequest, hlat, hlon]

theorem soilRequest_unsent (h : Host) (w : World) (lat lon : JSVal) (e : JSErr)
    (hbad : render h lat = .error e ∨ render h lon = .error e) :
    ∃ e2, soilRequest h w lat lon = { value := .error e2, calls := [] } := by
  unfold soilRequest
  cases hlat : render h lat with
  | error e1 => exact ⟨e1, rfl⟩
  | ok a =>
    cases hlon : render h lon with
    | error e1 => exact ⟨e1, rfl⟩
    | ok o =>
      rcases hbad with hbad | hbad
      · rw [hlat] at hbad; cases hbad
      · rw [hlon] at hbad; cases hbad

theorem weatherRequest_unsent (h : Host) (w : World) (lat lon : JSVal) (e : JSErr)
    (hbad : render h lat = .error e ∨ render h lon = .error e) :
    ∃ e2, weatherRequest h w lat lon = { value := .error e2, calls := [] } := by
  unfold weatherRequest
  cases hlat : render h lat with
  | error e1 => exact ⟨e1, rfl⟩
  | ok a =>
    cases hlon : render h lon with
    | error e1 => exact ⟨e1, rfl⟩
    | ok o =>
      rcases hbad with hbad | hbad
      · rw [hlat] at hbad; cases hbad
      · rw [hlon] at hbad; cases hbad

theorem rejected_of_throw (r : FetchResult) (hthrow : r = .fetchThrows ∨ r = .parseThrows) :
    r.json = .error .rejected := by
  rcases hthrow with hthrow | hthrow <;> rw [hthrow] <;> rfl

/-! ## Auxiliary lemmas on `getSoilData` and `getWeather` -/

theorem getSoilData_of_error (h : Host) (w : World) (lat lon : JSVal) (e : JSErr)
    (hreq : (soilRequest h w lat lon).value = .error e) :
    (getSoilData h w lat lon).value = fallbackSoil := by
  simp [getSoilData, hreq, bind, Except.bind]

theorem getSoilData_of_nullish (h : Host) (w : World) (lat lon data : JSVal)
    (hreq : (soilRequest h w lat lon).value = .ok data) (hnull : data.nullish = true) :
    (getSoilData h w lat lon).value = fallbackSoil := by
  simp [getSoilData, hreq, soilSampleOf, JSVal.dot_nullish _ _ hnull, bind, Except.bind]

theorem getSoilData_of_body (h : Host) (w : World) (lat lon data : JSVal)
    (hreq : (soilRequest h w lat lon).value = .ok data) (hnull : data.nullish = false) :
    (getSoilData h w lat lon).value =
      { soilType :=
          orElse (((data.getField "soil").getIndex 0).getField "name") (.str (utf16 "Unknown"))
        pH := orElse (((data.getField "phh2o").getField "mean").getIndex 0) (.str (utf16 "Unknown"))
        organicCarbon :=
          orElse (((data.getField "organiccarbon").getField "mean").getIndex 0)
            (.str (utf16 "Unknown")) } := by
  simp [getSoilData, hreq, soilSampleOf, JSVal.dot_defined _ _ hnull, bind, Except.bind,
    pure, Except.pure, JSVal.optDot_eq, JSVal.optIdx_eq]

theorem getWeather_of_error (h : Host) (w : World) (lat lon : JSVal) (e : JSErr)
    (hreq : (weatherRequest h w lat lon).value = .error e) :
    (getWeather h w lat lon).value = fallbackWeather := by
  simp [getWeather, hreq, bind, Except.bind]

theorem getWeather_of_nullish (h : Host) (w : World) (lat lon data : JSVal)
    (hreq : (weatherRequest h w lat lon).value = .ok data) (hnull : data.nullish = true) :
    (getWeather h w lat lon).value = fallbackWeather := by
  simp [getWeather, hreq, weatherSnapshotOf, JSVal.dot_nullish _ _ hnull, bind, Except.bind]

theorem getWeather_of_body (h : Host) (w : World) (lat lon data : JSVal)
    (hreq : (weatherRequest h w lat lon).value = .ok data) (hnull : data.nullish = false) :
    (getWeather h w lat lon).value =
      { temp := orElse ((data.getField "main").getField "temp") (.num 0)
        humidity := orElse ((data.getField "main").getField "humidity") (.num 0)
        description :=
          orElse (((data.getField "weather").getIndex 0).getField "description")
            (.str (utf16 "Unknown")) } := by
  simp [getWeather, hreq, weatherSnapshotOf, JSVal.dot_defined _ _ hnull, bind, Except.bind,
    pure, Except.pure, JSVal.optDot_eq, JSVal.optIdx_eq]

theorem soil_value_of_sent (h : Host) (w : World) (lat lon : JSVal) (a o : JSString)
    (hlat : render h lat = .ok a) (hlon : render h lon = .ok o) :
    (soilRequest h w lat lon).value = (w.soilgrids a o).json := by
  rw [soilRequest_sent h w lat lon a o hlat hlon]

theorem weather_value_of_sent (h : Host) (w : World) (lat lon : JSVal) (a o : JSString)
    (hlat : render h lat = .ok a) (hlon : render h lon = .ok o) :
    (weatherRequest h w lat lon).value = (w.openweather a o).json := by
  rw [weatherRequest_sent h w lat lon a o hlat hlon]

/-! ## Auxiliary lemmas on `getLatLon` and the handler -/

theorem getLatLon_of_throw (h : Host) (w : World) (city state : JSVal) (c s : JSString)
    (hcity : render h city = .ok c) (hstate : render h state = .ok s)
    (hthrow : (w.geocode c s).json = .error .rejected) :
    getLatLon h w city state = { value := fallbackLatLon, calls := [Call.geocode c s] } := by
  simp [getLatLon, geocodeRequest_sent h w city state c s hcity hstate, hthrow, bind, Except.bind]

theorem getLatLon_of_empty (h : Host) (w : World) (city state data : JSVal) (c s : JSString)
    (hcity : render h city = .ok c) (hstate : render h state = .ok s)
    (hdata : w.geocode c s = .body data) (hempty : data.getField "results" = .arr []) :
    getLatLon h w city state = { value := fallbackLatLon, calls := [Call.geocode c s] } := by
  have hnull : data.nullish = false := by
    cases data <;> first | rfl | simp [JSVal.getField] at hempty
  have hlen : (JSVal.arr []).dot "length" = .ok (.num 0) := by
    simp [JSVal.dot, JSVal.nullish, JSVal.getField]
  simp [getLatLon, geocodeRequest_sent h w city state c s hcity hstate, hdata, FetchResult.json,
    firstGeometry, JSVal.dot_defined _ _ hnull, hempty, hlen, gtZero, bind, Except.bind, pure,
    Except.pure]

theorem llm_not_in_getLatLon (h : Host) (w : World) (city state : JSVal) (m : List Message) :
    Call.llm m ∉ (getLatLon h w city state).calls := by
  simp only [getLatLon, geocodeRequest]
  split
  · simp
  · split <;> simp

theorem llm_not_in_getSoilData (h : Host) (w : World) (lat lon : JSVal) (m : List Message) :
    Call.llm m ∉ (getSoilData h w lat lon).calls := by
  simp only [getSoilData, soilRequest]
  split
  · simp
  · split <;> simp

theorem llm_not_in_getWeather (h : Host) (w : World) (lat lon : JSVal) (m : List Message) :
    Call.llm m ∉ (getWeather h w lat lon).calls := by
  simp only [getWeather, weatherRequest]
  split
  · simp
  · split <;> simp

theorem handler_of_unusable_geometry (h : Host) (w : World) (body : JSVal) (farmer : Farmer)
    (hbody : body.nullish = false)
    (hfind : w.findOne (body.getField "email") = .found farmer)
    (hgeo : (getLatLon h w farmer.city farmer.state).value.nullish = true) :
    handler h w body =
      { response := failureResponse
        calls := [Call.findOne (body.getField "email")]
          ++ (getLatLon h w farmer.city farmer.state).calls } := by
  simp [handler, hbody, hfind, hgeo]

theorem handler_of_unrendered (h : Host) (w : World) (body : JSVal) (farmer : Farmer) (e : JSErr)
    (hbody : body.nullish = false)
    (hfind : w.findOne (body.getField "email") = .found farmer)
    (hgeo : (getLatLon h w farmer.city farmer.state).value.nullish = false)
    (hprompt : systemMessage h farmer
        (getWeather h w ((getLatLon h w farmer.city farmer.state).value.getField "lat")
          ((getLatLon h w farmer.city farmer.state).value.getField "lng")).value
        (getSoilData h w ((getLatLon h w farmer.city farmer.state).value.getField "lat")
          ((getLatLon h w farmer.city farmer.state).value.getField "lng")).value = .error e) :
    handler h w body =
      { response := failureResponse
        calls := [Call.findOne (body.getField "email")]
          ++ (getLatLon h w farmer.city farmer.state).calls
          ++ (getSoilData h w ((getLatLon h w farmer.city farmer.state).value.getField "lat")
              ((getLatLon h w farmer.city farmer.state).value.getField "lng")).calls
          ++ (getWeather h w ((getLatLon h w farmer.city farmer.state).value.getField "lat")
              ((getLatLon h w farmer.city farmer.state).value.getField "lng")).calls } := by
  simp only [handler, hbody, hfind, hgeo, hprompt]
  simp

/-- The handler from the language-model stage on: the profile was found, the
value returned by `getLatLon` could be destructured and the prompt could be
composed. -/
theorem handler_of_found (h : Host) (w : World) (body : JSVal) (farmer : Farmer)
    (prompt : JSString)
    (hbody : body.nullish = false)
    (hfind : w.findOne (body.getField "email") = .found farmer)
    (hgeo : (getLatLon h w farmer.city farmer.state).value.nullish = false)
    (hprompt : systemMessage h farmer
        (getWeather h w ((getLatLon h w farmer.city farmer.state).value.getField "lat")
          ((getLatLon h w farmer.city farmer.state).value.getField "lng")).value
        (getSoilData h w ((getLatLon h w farmer.city farmer.state).value.getField "lat")
          ((getLatLon h w farmer.city farmer.state).value.getField "lng")).value = .ok prompt) :
    handler h w body =
      { response :=
          match (w.groq prompt (body.getField "question")).json >>= answerOf with
          | .error _ => failureResponse
          | .ok answer =>
            okResponse answer
              (getSoilData h w ((getLatLon h w farmer.city farmer.state).value.getField "lat")
                ((getLatLon h w farmer.city farmer.state).value.getField "lng")).value
              (getWeather h w ((getLatLon h w farmer.city farmer.state).value.getField "lat")
                ((getLatLon h w farmer.city farmer.state).value.getField "lng")).value
        calls := [Call.findOne (body.getField "email")]
          ++ (getLatLon h w farmer.city farmer.state).calls
          ++ (getSoilData h w ((getLatLon h w farmer.city farmer.state).value.getField "lat")
              ((getLatLon h w farmer.city farmer.state).value.getField "lng")).calls
          ++ (getWeather h w ((getLatLon h w farmer.city farmer.state).value.getField "lat")
              ((getLatLon h w farmer.city farmer.state).value.getField "lng")).calls
          ++ [Call.llm (llmMessages prompt (body.getField "question"))] } := by
  simp only [handler, hbody, hfind, hgeo, hprompt]
  simp only [Bool.false_eq_true, if_false]
  split <;> simp_all

theorem llm_mem_handler_calls (h : Host) (w : World) (body : JSVal) (farmer : Farmer)
    (log : List Call) (m n : List Message)
    (hmem : Call.llm m ∈ [Call.findOne (body.getField "email")]
          ++ (getLatLon h w farmer.city farmer.state).calls
          ++ (getSoilData h w ((getLatLon h w farmer.city farmer.state).value.getField "lat")
              ((getLatLon h w farmer.city farmer.state).value.getField "lng")).calls
          ++ (getWeather h w ((getLatLon h w farmer.city farmer.state).value.getField "lat")
              ((getLatLon h w farmer.city farmer.state).value.getField "lng")).calls
          ++ log)
    (hlog : log = [] ∨ log = [Call.llm n]) :
    log = [Call.llm n] ∧ m = n := by
  simp only [List.mem_append, List.mem_singleton] at hmem
  rcases hmem with (((hmem | hmem) | hmem) | hmem) | hmem
  · cases hmem
  · exact absurd hmem (llm_not_in_getLatLon _ _ _ _ _)
  · exact absurd hmem (llm_not_in_getSoilData _ _ _ _ _)
  · exact absurd hmem (llm_not_in_getWeather _ _ _ _ _)
  · rcases hlog with hlog | hlog
    · rw [hlog] at hmem; cases hmem
    · rw [hlog] at hmem
      simp only [List.mem_singleton] at hmem
      exact ⟨hlog, Call.llm.inj hmem⟩

theorem llmMessages_inj (s t : JSString) (q r : JSVal) (heq : llmMessages s q = llmMessages t r) :
    s = t ∧ q = r := by
  simp [llmMessages] at heq
  exact heq

theorem answerOf_of_no_choice (data : JSVal)
    (hchoices : data.getField "choices" = .undefined ∨ data.getField "choices" = .arr []) :
    answerOf data = .error .typeError := by
  cases hnull : data.nullish with
  | true => simp [answerOf, JSVal.dot_nullish _ _ hnull, bind, Except.bind]
  | false =>
    have hfirst : (JSVal.arr []).dotIdx 0 = .ok .undefined := by
      simp [JSVal.dotIdx, JSVal.nullish, JSVal.getIndex]
    rcases hchoices with hc | hc
    · simp [answerOf, JSVal.dot_defined _ _ hnull, hc, JSVal.dotIdx_nullish .undefined 0 rfl,
        bind, Except.bind]
    · simp [answerOf, JSVal.dot_defined _ _ hnull, hc, hfirst,
        JSVal.dot_nullish .undefined "message" rfl, bind, Except.bind]

theorem answerOf_ok (data answer : JSVal) (hok : answerOf data = .ok answer) :
    answer = (((data.getField "choices").getIndex 0).getField "message").getField "content" := by
  simp only [answerOf, bind, Except.bind] at hok
  cases h1 : data.nullish with
  | true => simp [JSVal.dot_nullish _ _ h1] at hok
  | false =>
    simp only [JSVal.dot_defined _ _ h1] at hok
    cases h2 : (data.getField "choices").nullish with
    | true => simp [JSVal.dotIdx_nullish _ _ h2] at hok
    | false =>
      simp only [JSVal.dotIdx_defined _ _ h2] at hok
      cases h3 : ((data.getField "choices").getIndex 0).nullish with
      | true => simp [JSVal.dot_nullish _ _ h3] at hok
      | false =>
        simp only [JSVal.dot_defined _ _ h3] at hok
        cases h4 : (((data.getField "choices").getIndex 0).getField "message").nullish with
        | true => simp [JSVal.dot_nullish _ _ h4] at hok
        | false =>
          simp only [JSVal.dot_defined _ _ h4] at hok
          exact (Except.ok.inj hok).symm

theorem occurs_at_end (a p : JSString) : p <:+: a ++ p :=
  ⟨a, [], by simp⟩

theorem occurs_append {p s : JSString} (t : JSString) (hp : p <:+: s) : p <:+: s ++ t := by
  obtain ⟨a, b, rfl⟩ := hp
  exact ⟨a, b ++ t, by simp [List.append_assoc]⟩

/-- What a composed prompt is made of: every interpolated value has a
rendering and the prompt is the template text around these renderings. -/
theorem systemMessage_ok (h : Host) (farmer : Farmer) (weather : WeatherSnapshot)
    (soil : SoilSample) (prompt : JSString)
    (hprompt : systemMessage h farmer weather soil = .ok prompt) :
    ∃ city state crop temp description humidity soilType pH organicCarbon,
      render h farmer.city = .ok city ∧ render h farmer.state = .ok state
        ∧ render h farmer.crop = .ok crop ∧ render h weather.temp = .ok temp
        ∧ render h weather.description = .ok description
        ∧ render h weather.humidity = .ok humidity
        ∧ render h soil.soilType = .ok soilType ∧ render h soil.pH = .ok pH
        ∧ render h soil.organicCarbon = .ok organicCarbon
        ∧ prompt
          = promptText city state crop temp description humidity soilType pH organicCarbon := by
  simp only [systemMessage, bind, Except.bind] at hprompt
  cases h1 : render h farmer.city with
  | error e => simp [h1] at hprompt
  | ok city =>
  cases h2 : render h farmer.state with
  | error e => simp [h1, h2] at hprompt
  | ok state =>
  cases h3 : render h farmer.crop with
  | error e => simp [h1, h2, h3] at hprompt
  | ok crop =>
  cases h4 : render h weather.temp with
  | error e => simp [h1, h2, h3, h4] at hprompt
  | ok temp =>
  cases h5 : render h weather.description with
  | error e => simp [h1, h2, h3, h4, h5] at hprompt
  | ok description =>
  cases h6 : render h weather.humidity with
  | error e => simp [h1, h2, h3, h4, h5, h6] at hprompt
  | ok humidity =>
  cases h7 : render h soil.soilType with
  | error e => simp [h1, h2, h3, h4, h5, h6, h7] at hprompt
  | ok soilType =>
  cases h8 : render h soil.pH with
  | error e => simp [h1, h2, h3, h4, h5, h6, h7, h8] at hprompt
  | ok pH =>
  cases h9 : render h soil.organicCarbon with
  | error e => simp [h1, h2, h3, h4, h5, h6, h7, h8, h9] at hprompt
  | ok organicCarbon =>
    simp only [h1, h2, h3, h4, h5, h6, h7, h8, h9, pure, Except.pure] at hprompt
    exact ⟨city, state, crop, temp, description, humidity, soilType, pH, organicCarbon,
      rfl, rfl, rfl, rfl, rfl, rfl, rfl, rfl, rfl, (Except.ok.inj hprompt).symm⟩


/-! ## Worked values of the fixtures -/

theorem fixture_render_pH : render fixtureHost (.num 7.1) = .ok (utf16 "7.1") := by
  have hden : (7.1 : ℚ).den = 10 := by norm_num
  have hnum : (7.1 : ℚ).num = 71 := by norm_num
  have hpos : ¬ ((7.1 : ℚ) < 0) := by norm_num
  simp only [render, renderNum, fixtureHost, hden, hnum, hpos]
  rfl

theorem fixture_render_carbon : render fixtureHost (.num 2.4) = .ok (utf16 "2.4") := by
  have hden : (2.4 : ℚ).den = 5 := by norm_num
  have hnum : (2.4 : ℚ).num = 12 := by norm_num
  have hpos : ¬ ((2.4 : ℚ) < 0) := by norm_num
  simp only [render, renderNum, fixtureHost, hden, hnum, hpos]
  rfl

set_option maxRecDepth 100000 in
theorem fixture_prompt :
    systemMessage fixtureHost fixtureFarmer fixtureWeather fixtureSoil = .ok fixturePrompt := by
  simp only [systemMessage, fixtureFarmer, fixtureWeather, fixtureSoil, fixture_render_pH,
    fixture_render_carbon, bind, Except.bind]
  rfl

theorem fixture_enrichment (w : World) (lat lon : JSVal) (a o : JSString)
    (hlat : render fixtureHost lat = .ok a) (hlon : render fixtureHost lon = .ok o)
    (hsoil : w.soilgrids a o = .body fixtureSoilBody)
    (hweather : w.openweather a o = .body fixtureWeatherBody) :
    (getSoilData fixtureHost w lat lon).value = fixtureSoil
      ∧ (getWeather fixtureHost w lat lon).value = fixtureWeather := by
  constructor
  · rw [getSoilData_of_body fixtureHost w lat lon fixtureSoilBody
      (by rw [soil_value_of_sent _ _ _ _ a o hlat hlon, hsoil]; rfl) rfl]
    have h1 : (JSVal.num 7.1).truthy = true := by simp [JSVal.truthy]; norm_num
    have h2 : (JSVal.num 2.4).truthy = true := by simp [JSVal.truthy]; norm_num
    have p1 : ((fixtureSoilBody.getField "phh2o").getField "mean").getIndex 0 = .num 7.1 := rfl
    have p2 : ((fixtureSoilBody.getField "organiccarbon").getField "mean").getIndex 0
        = .num 2.4 := rfl
    rw [p1, p2, JSVal.orElse_truthy _ _ h1, JSVal.orElse_truthy _ _ h2]
    rfl
  · rw [getWeather_of_body fixtureHost w lat lon fixtureWeatherBody
      (by rw [weather_value_of_sent _ _ _ _ a o hlat hlon, hweather]; rfl) rfl]
    rfl

/-- The run of the handler on the fixture request when the geocoder answers
with coordinates `geometry` that render as `a` and `o`, and the other services
answer as in `fixtureWorld`. -/
theorem fixture_run (w : World) (geometry : JSVal) (a o : JSString)
    (hfind : w.findOne (.str (utf16 "farmer@example.org")) = .found fixtureFarmer)
    (hgeo : getLatLon fixtureHost w fixtureFarmer.city fixtureFarmer.state
      = { value := geometry, calls := [Call.geocode (utf16 "Springfield") (utf16 "IL")] })
    (hnull : geometry.nullish = false)
    (hlat : render fixtureHost (geometry.getField "lat") = .ok a)
    (hlon : render fixtureHost (geometry.getField "lng") = .ok o)
    (hsoil : w.soilgrids a o = .body fixtureSoilBody)
    (hweather : w.openweather a o = .body fixtureWeatherBody) :
    handler fixtureHost w fixtureBody =
      { response :=
          match (w.groq fixturePrompt (.str (utf16 "When should I sow?"))).json >>= answerOf with
          | .error _ => failureResponse
          | .ok answer => okResponse answer fixtureSoil fixtureWeather
        calls := [Call.findOne (.str (utf16 "farmer@example.org")),
                  Call.geocode (utf16 "Springfield") (utf16 "IL"),
                  Call.soil a o, Call.weather a o,
                  Call.llm (llmMessages fixturePrompt (.str (utf16 "When should I sow?")))] } := by
  have henrich := fixture_enrichment w (geometry.getField "lat") (geometry.getField "lng") a o
    hlat hlon hsoil hweather
  have hprompt : systemMessage fixtureHost fixtureFarmer
      (getWeather fixtureHost w
        ((getLatLon fixtureHost w fixtureFarmer.city fixtureFarmer.state).value.getField "lat")
        ((getLatLon fixtureHost w fixtureFarmer.city fixtureFarmer.state).value.getField "lng")).value
      (getSoilData fixtureHost w
        ((getLatLon fixtureHost w fixtureFarmer.city fixtureFarmer.state).value.getField "lat")
        ((getLatLon fixtureHost w fixtureFarmer.city fixtureFarmer.state).value.getField "lng")).value
      = .ok fixturePrompt := by
    rw [hgeo, henrich.1, henrich.2]
    exact fixture_prompt
  rw [handler_of_found fixtureHost w fixtureBody fixtureFarmer fixturePrompt rfl hfind
    (by rw [hgeo]; exact hnull) hprompt]
  simp only [hgeo, henrich.1, henrich.2]
  have hs : (getSoilData fixtureHost w (geometry.getField "lat") (geometry.getField "lng")).calls
      = [Call.soil a o] := by
    simp [getSoilData, soilRequest_sent fixtureHost w _ _ a o hlat hlon]
  have hw : (getWeather fixtureHost w (geometry.getField "lat") (geometry.getField "lng")).calls
      = [Call.weather a o] := by
    simp [getWeather, weatherRequest_sent fixtureHost w _ _ a o hlat hlon]
  rw [hs, hw]
  rfl

/-- The run of the handler when the soil name cannot be converted to a string:
the template literal of lines 78-84 throws, the handler answers 500 and the
language model is not called. -/
theorem fixture_template_throws :
    handler fixtureHost (fixtureWorldWith fixtureOpaqueNameBody fixtureWeatherBody) fixtureBody
      = { response := failureResponse
          calls := [Call.findOne (.str (utf16 "farmer@example.org")),
                    Call.geocode (utf16 "Springfield") (utf16 "IL"),
                    Call.soil (utf16 "40") (utf16 "-89"),
                    Call.weather (utf16 "40") (utf16 "-89")] } := by
  rw [handler_of_unrendered fixtureHost (fixtureWorldWith fixtureOpaqueNameBody fixtureWeatherBody)
    fixtureBody fixtureFarmer .typeError rfl rfl rfl rfl]
  rfl

/-! ## Properties -/

/-- C1: when the request body can be destructured and `Farmer.findOne` resolves
to `null` for its email, the handler answers 404 with the body
`{ error: "Farmer not found" }`, and the only call it made is the profile
lookup: none of the geocoding, soil, weather or language-model services is
invoked. -/
theorem handler_unknown_farmer (h : Host) (w : World) (body : JSVal)
    (hbody : body.nullish = false)
    (hmiss : w.findOne (body.getField "email") = .notFound) :
    (handler h w body).response
        = { status := 404, body := .obj [("error", .str (utf16 "Farmer not found"))] }
      ∧ (handler h w body).calls = [Call.findOne (body.getField "email")]
      ∧ ∀ c ∈ (handler h w body).calls, c.downstream = false := by
  have hrun : handler h w body
      = { response := notFoundResponse, calls := [Call.findOne (body.getField "email")] } := by
    simp [handler, hbody, hmiss]
  rw [hrun]
  refine ⟨rfl, rfl, ?_⟩
  intro c hc
  simp only [List.mem_singleton] at hc
  subst hc
  rfl

/-- Worked example for C1: a world whose profile lookup always misses. -/
theorem handler_unknown_farmer_witness :
    fixtureBody.nullish = false
      ∧ (handler fixtureHost { fixtureWorld with findOne := fun _ => .notFound } fixtureBody).response
          = { status := 404, body := .obj [("error", .str (utf16 "Farmer not found"))] }
      ∧ (handler fixtureHost { fixtureWorld with findOne := fun _ => .notFound } fixtureBody).calls
          = [Call.findOne (.str (utf16 "farmer@example.org"))] := by
  have key := handler_unknown_farmer fixtureHost
    { fixtureWorld with findOne := fun _ => .notFound } fixtureBody rfl rfl
  exact ⟨rfl, key.1, key.2.1⟩

/-- C2: when the profile lookup throws, or the handler posts to the language
model and that fetch throws, or its body fails to parse, or the parsed answer
has an absent or empty `choices` list, the one response of the handler has
status 500 and the body `{ error: "Failed to get AI response" }`: it carries no
answer, soil or weather field and is not a 200 response. -/
theorem handler_failure_is_500 (h : Host) (w : World) (body : JSVal)
    (hfail : w.findOne (body.getField "email") = .throws
      ∨ ∃ system question, Call.llm (llmMessages system question) ∈ (handler h w body).calls
          ∧ (w.groq system question = .fetchThrows
              ∨ w.groq system question = .parseThrows
              ∨ ∃ data, w.groq system question = .body data
                  ∧ (data.getField "choices" = .undefined ∨ data.getField "choices" = .arr []))) :
    (handler h w body).response
      = { status := 500, body := .obj [("error", .str (utf16 "Failed to get AI response"))] } := by
  cases hbody : body.nullish with
  | true => simp [handler, hbody, failureResponse]
  | false =>
    cases hfind : w.findOne (body.getField "email") with
    | throws => simp [handler, hbody, hfind, failureResponse]
    | notFound =>
      rcases hfail with hthrow | ⟨system, question, hmem, _⟩
      · rw [hfind] at hthrow; cases hthrow
      · simp [handler, hbody, hfind] at hmem
    | found farmer =>
      cases hgeo : (getLatLon h w farmer.city farmer.state).value.nullish with
      | true =>
        rw [handler_of_unusable_geometry h w body farmer hbody hfind hgeo]
        rfl
      | false =>
        cases hprompt : systemMessage h farmer (getWeather h w ((getLatLon h w farmer.city farmer.state).value.getField "lat") ((getLatLon h w farmer.city farmer.state).value.getField "lng")).value (getSoilData h w ((getLatLon h w farmer.city farmer.state).value.getField "lat") ((getLatLon h w farmer.city farmer.state).value.getField "lng")).value with
        | error e =>
          rw [handler_of_unrendered h w body farmer e hbody hfind hgeo hprompt]
          rfl
        | ok prompt =>
          rcases hfail with hthrow | ⟨system, question, hmem, hbad⟩
          · rw [hfind] at hthrow; cases hthrow
          · rw [handler_of_found h w body farmer prompt hbody hfind hgeo hprompt] at hmem ⊢
            have hsame := (llm_mem_handler_calls h w body farmer _ _ _ hmem (Or.inr rfl)).2
            have hmsg := llmMessages_inj _ _ _ _ hsame
            rw [← hmsg.1, ← hmsg.2]
            rcases hbad with hbad | hbad | ⟨data, hbad, hchoices⟩
            · simp [hbad, FetchResult.json, bind, Except.bind, failureResponse]
            · simp [hbad, FetchResult.json, bind, Except.bind, failureResponse]
            · simp [hbad, FetchResult.json, bind, Except.bind, failureResponse,
                answerOf_of_no_choice data hchoices]

/-- Worked example for C2: the language model answers with an empty `choices`
list. -/
theorem handler_failure_is_500_witness :
    Call.llm (llmMessages fixturePrompt (.str (utf16 "When should I sow?")))
        ∈ (handler fixtureHost (fixtureWorldLLM (.body (.obj [("choices", .arr [])])))
            fixtureBody).calls
      ∧ (fixtureWorldLLM (.body (.obj [("choices", .arr [])]))).groq fixturePrompt
          (.str (utf16 "When should I sow?")) = .body (.obj [("choices", .arr [])])
      ∧ (handler fixtureHost (fixtureWorldLLM (.body (.obj [("choices", .arr [])]))) fixtureBody).response
        = { status := 500, body := .obj [("error", .str (utf16 "Failed to get AI response"))] } := by
  have hmem : Call.llm (llmMessages fixturePrompt (.str (utf16 "When should I sow?")))
      ∈ (handler fixtureHost (fixtureWorldLLM (.body (.obj [("choices", .arr [])])))
          fixtureBody).calls := by
    rw [fixture_run (fixtureWorldLLM (.body (.obj [("choices", .arr [])])))
      (.obj [("lat", .num 40), ("lng", .num (-89))]) (utf16 "40") (utf16 "-89")
      rfl rfl rfl rfl rfl rfl rfl]
    simp
  exact ⟨hmem, rfl,
    handler_failure_is_500 fixtureHost (fixtureWorldLLM (.body (.obj [("choices", .arr [])])))
      fixtureBody (Or.inr ⟨fixturePrompt, .str (utf16 "When should I sow?"), hmem,
        Or.inr (Or.inr ⟨_, rfl, Or.inr rfl⟩)⟩)⟩

/-- C3: when the geocoding request for a city and a state is sent and its
fetch throws, its body fails to parse, or the parsed answer has an empty
`results` list, `getLatLon` returns `{ lat: 0, lng: 0 }`; for a request whose
profile has this city and state, the handler then queries the soil and the
weather service at latitude 0 and longitude 0 and, when the language-model call
is made and yields an answer, responds 200 with that answer and the soil and
weather values of these two queries. -/
theorem geocode_failure_falls_back (h : Host) (w : World) (city state : JSVal)
    (scity sstate : JSString)
    (hcity : render h city = .ok scity) (hstate : render h state = .ok sstate)
    (hfail : w.geocode scity sstate = .fetchThrows
      ∨ w.geocode scity sstate = .parseThrows
      ∨ ∃ data, w.geocode scity sstate = .body data ∧ data.getField "results" = .arr []) :
    (getLatLon h w city state).value = .obj [("lat", .num 0), ("lng", .num 0)]
      ∧ ∀ body crop prompt data answer, body.nullish = false →
          w.findOne (body.getField "email") = .found { city := city, state := state, crop := crop } →
          systemMessage h { city := city, state := state, crop := crop }
              (getWeather h w (.num 0) (.num 0)).value (getSoilData h w (.num 0) (.num 0)).value
            = .ok prompt →
          w.groq prompt (body.getField "question") = .body data →
          answerOf data = .ok answer →
          handler h w body =
            { response :=
                { status := 200
                  body := .obj [("answer", answer),
                                ("soil", (getSoilData h w (.num 0) (.num 0)).value.toJS),
                                ("weather", (getWeather h w (.num 0) (.num 0)).value.toJS)] }
              calls :=
                [Call.findOne (body.getField "email"), Call.geocode scity sstate,
                 Call.soil (utf16 "0") (utf16 "0"), Call.weather (utf16 "0") (utf16 "0"),
                 Call.llm
                   [{ role := "system", content := .str prompt },
                    { role := "user", content := body.getField "question" }]] } := by
  have hgeo : getLatLon h w city state
      = { value := fallbackLatLon, calls := [Call.geocode scity sstate] } := by
    rcases hfail with hthrow | hthrow | ⟨data, hdata, hempty⟩
    · exact getLatLon_of_throw h w city state scity sstate hcity hstate (by rw [hthrow]; rfl)
    · exact getLatLon_of_throw h w city state scity sstate hcity hstate (by rw [hthrow]; rfl)
    · exact getLatLon_of_empty h w city state data scity sstate hcity hstate hdata hempty
  refine ⟨by rw [hgeo]; rfl, ?_⟩
  intro body crop prompt data answer hbody hfind hprompt hllm hanswer
  have hlat : fallbackLatLon.getField "lat" = .num 0 := rfl
  have hlng : fallbackLatLon.getField "lng" = .num 0 := rfl
  have hzero : render h (.num 0) = .ok (utf16 "0") := rfl
  have hs : (getSoilData h w (.num 0) (.num 0)).calls = [Call.soil (utf16 "0") (utf16 "0")] := by
    simp [getSoilData, soilRequest_sent h w _ _ _ _ hzero hzero]
  have hw : (getWeather h w (.num 0) (.num 0)).calls
      = [Call.weather (utf16 "0") (utf16 "0")] := by
    simp [getWeather, weatherRequest_sent h w _ _ _ _ hzero hzero]
  rw [handler_of_found h w body _ prompt hbody hfind (by rw [hgeo]; rfl)
    (by simp only [hgeo, hlat, hlng]; exact hprompt)]
  simp only [hgeo, hlat, hlng, hs, hw, hllm, FetchResult.json, bind, Except.bind, hanswer]
  rfl

/-- Worked example for C3: the geocoding fetch rejects. -/
theorem geocode_failure_falls_back_witness :
    (getLatLon fixtureHost (fixtureWorldGeoResult .fetchThrows) (.str (utf16 "Springfield"))
        (.str (utf16 "IL"))).value = .obj [("lat", .num 0), ("lng", .num 0)]
      ∧ handler fixtureHost (fixtureWorldGeoResult .fetchThrows) fixtureBody
        = { response :=
              { status := 200
                body := .obj [("answer", .str (utf16 "Sow after the rain.")),
                              ("soil", .obj [("soilType", .str (utf16 "Clay")), ("pH", .num 7.1),
                                             ("organicCarbon", .num 2.4)]),
                              ("weather", .obj [("temp", .num 21), ("humidity", .num 64),
                                                ("description", .str (utf16 "light rain"))])] }
            calls :=
              [Call.findOne (.str (utf16 "farmer@example.org")),
               Call.geocode (utf16 "Springfield") (utf16 "IL"),
               Call.soil (utf16 "0") (utf16 "0"), Call.weather (utf16 "0") (utf16 "0"),
               Call.llm
                 [{ role := "system", content := .str fixturePrompt },
                  { role := "user", content := .str (utf16 "When should I sow?") }]] } := by
  have key := geocode_failure_falls_back fixtureHost (fixtureWorldGeoResult .fetchThrows)
    (.str (utf16 "Springfield")) (.str (utf16 "IL")) (utf16 "Springfield") (utf16 "IL")
    rfl rfl (Or.inl rfl)
  have henrich := fixture_enrichment (fixtureWorldGeoResult .fetchThrows) (.num 0) (.num 0)
    (utf16 "0") (utf16 "0") rfl rfl rfl rfl
  have hrun := key.2 fixtureBody (.str (utf16 "corn")) fixturePrompt fixtureLLMBody
    (.str (utf16 "Sow after the rain.")) rfl rfl
    (by rw [henrich.1, henrich.2]; exact fixture_prompt) rfl rfl
  refine ⟨key.1, ?_⟩
  rw [hrun, henrich.1, henrich.2]
  rfl

/-- C4: for every pair of coordinates, when the soil fetch or its body parse
throws, `getSoilData` returns exactly `{ soilType: "Loam", pH: 6.5,
organicCarbon: 1.2 }`, and when the weather fetch or its body parse throws,
`getWeather` returns exactly `{ temp: 30, humidity: 50, description: "Clear" }`;
the same values are returned when the URL of the request cannot be built. Both
functions are total: they return a value and never throw. -/
theorem enrichment_fallback_on_throw (h : Host) (w : World) (lat lon : JSVal) :
    ((∀ slat slon, render h lat = .ok slat → render h lon = .ok slon →
          (w.soilgrids slat slon = .fetchThrows ∨ w.soilgrids slat slon = .parseThrows) →
          (getSoilData h w lat lon).value
            = { soilType := .str (utf16 "Loam"), pH := .num 6.5, organicCarbon := .num 1.2 })
        ∧ (∀ e, (render h lat = .error e ∨ render h lon = .error e) →
          (getSoilData h w lat lon).value
            = { soilType := .str (utf16 "Loam"), pH := .num 6.5, organicCarbon := .num 1.2 }))
      ∧ ((∀ slat slon, render h lat = .ok slat → render h lon = .ok slon →
          (w.openweather slat slon = .fetchThrows ∨ w.openweather slat slon = .parseThrows) →
          (getWeather h w lat lon).value
            = { temp := .num 30, humidity := .num 50, description := .str (utf16 "Clear") })
        ∧ (∀ e, (render h lat = .error e ∨ render h lon = .error e) →
          (getWeather h w lat lon).value
            = { temp := .num 30, humidity := .num 50, description := .str (utf16 "Clear") })) := by
  refine ⟨⟨?_, ?_⟩, ⟨?_, ?_⟩⟩
  · intro slat slon hlat hlon hthrow
    apply getSoilData_of_error h w lat lon .rejected
    rw [soil_value_of_sent h w lat lon slat slon hlat hlon]
    exact rejected_of_throw _ hthrow
  · intro e hbad
    obtain ⟨e2, hreq⟩ := soilRequest_unsent h w lat lon e hbad
    exact getSoilData_of_error h w lat lon e2 (by rw [hreq])
  · intro slat slon hlat hlon hthrow
    apply getWeather_of_error h w lat lon .rejected
    rw [weather_value_of_sent h w lat lon slat slon hlat hlon]
    exact rejected_of_throw _ hthrow
  · intro e hbad
    obtain ⟨e2, hreq⟩ := weatherRequest_unsent h w lat lon e hbad
    exact getWeather_of_error h w lat lon e2 (by rw [hreq])

/-- Worked example for C4: the soil fetch rejects and the weather body does
not parse. -/
theorem enrichment_fallback_on_throw_witness :
    (getSoilData fixtureHost { fixtureWorld with soilgrids := fun _ _ => .fetchThrows,
                                                 openweather := fun _ _ => .parseThrows }
          (.num 40) (.num (-89))).value
        = { soilType := .str (utf16 "Loam"), pH := .num 6.5, organicCarbon := .num 1.2 }
      ∧ (getWeather fixtureHost { fixtureWorld with soilgrids := fun _ _ => .fetchThrows,
                                                    openweather := fun _ _ => .parseThrows }
          (.num 40) (.num (-89))).value
        = { temp := .num 30, humidity := .num 50, description := .str (utf16 "Clear") } :=
  ⟨(enrichment_fallback_on_throw _ _ _ _).1.1 (utf16 "40") (utf16 "-89") rfl rfl (Or.inl rfl),
   (enrichment_fallback_on_throw _ _ _ _).2.1 (utf16 "40") (utf16 "-89") rfl rfl (Or.inr rfl)⟩

/-- C10: for every outcome of the soil and weather calls (a throw or any
parsed body), every field of the sample returned by `getSoilData` and of the
snapshot returned by `getWeather` is neither `undefined` nor `null`. -/
theorem enrichment_fields_defined (h : Host) (w : World) (lat lon : JSVal) :
    ((getSoilData h w lat lon).value.soilType.nullish = false
        ∧ (getSoilData h w lat lon).value.pH.nullish = false
        ∧ (getSoilData h w lat lon).value.organicCarbon.nullish = false)
      ∧ ((getWeather h w lat lon).value.temp.nullish = false
        ∧ (getWeather h w lat lon).value.humidity.nullish = false
        ∧ (getWeather h w lat lon).value.description.nullish = false) := by
  constructor
  · cases hreq : (soilRequest h w lat lon).value with
    | error e => rw [getSoilData_of_error h w lat lon e hreq]; exact ⟨rfl, rfl, rfl⟩
    | ok data =>
      cases hnull : data.nullish with
      | true => rw [getSoilData_of_nullish h w lat lon data hreq hnull]; exact ⟨rfl, rfl, rfl⟩
      | false =>
        rw [getSoilData_of_body h w lat lon data hreq hnull]
        exact ⟨JSVal.orElse_defined _ _ rfl, JSVal.orElse_defined _ _ rfl,
          JSVal.orElse_defined _ _ rfl⟩
  · cases hreq : (weatherRequest h w lat lon).value with
    | error e => rw [getWeather_of_error h w lat lon e hreq]; exact ⟨rfl, rfl, rfl⟩
    | ok data =>
      cases hnull : data.nullish with
      | true => rw [getWeather_of_nullish h w lat lon data hreq hnull]; exact ⟨rfl, rfl, rfl⟩
      | false =>
        rw [getWeather_of_body h w lat lon data hreq hnull]
        exact ⟨JSVal.orElse_defined _ _ rfl, JSVal.orElse_defined _ _ rfl,
          JSVal.orElse_defined _ _ rfl⟩

/-- C5 fails as stated: a soil answer carrying the name "Clay", the mean pH 0
and the mean organic carbon 2.4 yields the pH `"Unknown"`, not the number 0. -/
theorem soil_zero_pH_replaced :
    (fixtureWorldWith fixtureZeroPHBody fixtureWeatherBody).soilgrids (utf16 "40") (utf16 "-89")
        = .body fixtureZeroPHBody
      ∧ ((fixtureZeroPHBody.getField "soil").getIndex 0).getField "name" = .str (utf16 "Clay")
      ∧ ((fixtureZeroPHBody.getField "phh2o").getField "mean").getIndex 0 = .num 0
      ∧ ((fixtureZeroPHBody.getField "organiccarbon").getField "mean").getIndex 0 = .num 2.4
      ∧ (getSoilData fixtureHost (fixtureWorldWith fixtureZeroPHBody fixtureWeatherBody)
            (.num 40) (.num (-89))).value
          = { soilType := .str (utf16 "Clay"), pH := .str (utf16 "Unknown"),
              organicCarbon := .num 2.4 }
      ∧ (getSoilData fixtureHost (fixtureWorldWith fixtureZeroPHBody fixtureWeatherBody)
            (.num 40) (.num (-89))).value
          ≠ { soilType := .str (utf16 "Clay"), pH := .num 0, organicCarbon := .num 2.4 } := by
  have hrun : (getSoilData fixtureHost (fixtureWorldWith fixtureZeroPHBody fixtureWeatherBody)
      (.num 40) (.num (-89))).value
        = { soilType := .str (utf16 "Clay"), pH := .str (utf16 "Unknown"),
            organicCarbon := .num 2.4 } := by
    rw [getSoilData_of_body fixtureHost (fixtureWorldWith fixtureZeroPHBody fixtureWeatherBody)
      (.num 40) (.num (-89)) fixtureZeroPHBody rfl rfl]
    have h2 : (JSVal.num 2.4).truthy = true := by simp [JSVal.truthy]; norm_num
    have p2 : ((fixtureZeroPHBody.getField "organiccarbon").getField "mean").getIndex 0
        = .num 2.4 := rfl
    rw [p2, JSVal.orElse_truthy _ _ h2]
    rfl
  refine ⟨rfl, rfl, rfl, rfl, hrun, ?_⟩
  rw [hrun]
  simp

/-- C5, amended: when the soil request is sent and answered with a body
carrying `soil[0].name = n`, `phh2o.mean[0] = p` and `organiccarbon.mean[0] =
c`, all three truthy (a non-empty string, a non-zero number), `getSoilData`
returns `{ soilType: n, pH: p, organicCarbon: c }`; when the weather request is
sent and answered with a body carrying `main.temp = t`, `main.humidity = u` and
`weather[0].description = d`, with `t` and `u` truthy or the number zero and `d`
truthy, `getWeather` returns `{ temp: t, humidity: u, description: d }`. -/
theorem enrichment_reflects_upstream (h : Host) (w : World) (lat lon : JSVal)
    (slat slon : JSString) (hlat : render h lat = .ok slat) (hlon : render h lon = .ok slon) :
    (∀ data n p c : JSVal, w.soilgrids slat slon = .body data →
        ((data.getField "soil").getIndex 0).getField "name" = n →
        ((data.getField "phh2o").getField "mean").getIndex 0 = p →
        ((data.getField "organiccarbon").getField "mean").getIndex 0 = c →
        n.truthy = true → p.truthy = true → c.truthy = true →
        (getSoilData h w lat lon).value = { soilType := n, pH := p, organicCarbon := c })
      ∧ (∀ data t u d : JSVal, w.openweather slat slon = .body data →
        (data.getField "main").getField "temp" = t →
        (data.getField "main").getField "humidity" = u →
        ((data.getField "weather").getIndex 0).getField "description" = d →
        (t.truthy = true ∨ t = .num 0) → (u.truthy = true ∨ u = .num 0) → d.truthy = true →
        (getWeather h w lat lon).value = { temp := t, humidity := u, description := d }) := by
  constructor
  · intro data n p c hdata hn hp hc tn tp tc
    have hnull : data.nullish = false := by
      cases data <;> first | rfl | (subst hn; simp [JSVal.getField, JSVal.getIndex, JSVal.truthy] at tn)
    have hreq : (soilRequest h w lat lon).value = .ok data := by
      rw [soil_value_of_sent h w lat lon slat slon hlat hlon, hdata]; rfl
    rw [getSoilData_of_body h w lat lon data hreq hnull, hn, hp, hc,
      JSVal.orElse_truthy _ _ tn, JSVal.orElse_truthy _ _ tp, JSVal.orElse_truthy _ _ tc]
  · intro data t u d hdata ht hu hd tt tu td
    have hnull : data.nullish = false := by
      cases data <;> first | rfl | (subst hd; simp [JSVal.getField, JSVal.getIndex, JSVal.truthy] at td)
    have hreq : (weatherRequest h w lat lon).value = .ok data := by
      rw [weather_value_of_sent h w lat lon slat slon hlat hlon, hdata]; rfl
    have zero_or : ∀ v : JSVal, (v.truthy = true ∨ v = .num 0) → orElse v (.num 0) = v := by
      intro v hv
      rcases hv with hv | hv
      · exact JSVal.orElse_truthy _ _ hv
      · subst hv; simp [orElse]
    rw [getWeather_of_body h w lat lon data hreq hnull, ht, hu, hd,
      zero_or _ tt, zero_or _ tu, JSVal.orElse_truthy _ _ td]

/-- Worked example for C5: the fixture soil and weather answers are reflected
field by field. -/
theorem enrichment_reflects_upstream_witness :
    (getSoilData fixtureHost fixtureWorld (.num 40) (.num (-89))).value
        = { soilType := .str (utf16 "Clay"), pH := .num 7.1, organicCarbon := .num 2.4 }
      ∧ (getWeather fixtureHost fixtureWorld (.num 40) (.num (-89))).value
        = { temp := .num 21, humidity := .num 64, description := .str (utf16 "light rain") } :=
  ⟨(enrichment_reflects_upstream fixtureHost fixtureWorld (.num 40) (.num (-89))
        (utf16 "40") (utf16 "-89") rfl rfl).1 fixtureSoilBody
      (.str (utf16 "Clay")) (.num 7.1) (.num 2.4) rfl rfl rfl rfl
      rfl (by simp [JSVal.truthy]; norm_num) (by simp [JSVal.truthy]; norm_num),
   (enrichment_reflects_upstream fixtureHost fixtureWorld (.num 40) (.num (-89))
        (utf16 "40") (utf16 "-89") rfl rfl).2 fixtureWeatherBody
      (.num 21) (.num 64) (.str (utf16 "light rain")) rfl rfl rfl rfl
      (Or.inl rfl) (Or.inl rfl) rfl⟩

/-- C9 fails as stated: on the empty object `{}` the soil sample is
`{ "Unknown", "Unknown", "Unknown" }` and the weather snapshot is
`{ 0, 0, "Unknown" }`, neither being the fallback of the `catch` block. -/
theorem empty_answer_not_catch_fallback :
    (getSoilData fixtureHost (fixtureWorldWith (.obj []) (.obj [])) (.num 40) (.num (-89))).value
        = { soilType := .str (utf16 "Unknown"), pH := .str (utf16 "Unknown"),
            organicCarbon := .str (utf16 "Unknown") }
      ∧ (getSoilData fixtureHost (fixtureWorldWith (.obj []) (.obj [])) (.num 40) (.num (-89))).value
        ≠ { soilType := .str (utf16 "Loam"), pH := .num 6.5, organicCarbon := .num 1.2 }
      ∧ (getWeather fixtureHost (fixtureWorldWith (.obj []) (.obj [])) (.num 40) (.num (-89))).value
        = { temp := .num 0, humidity := .num 0, description := .str (utf16 "Unknown") }
      ∧ (getWeather fixtureHost (fixtureWorldWith (.obj []) (.obj [])) (.num 40) (.num (-89))).value
        ≠ { temp := .num 30, humidity := .num 50, description := .str (utf16 "Clear") } := by
  have hsoil : (getSoilData fixtureHost (fixtureWorldWith (.obj []) (.obj []))
      (.num 40) (.num (-89))).value
      = { soilType := .str (utf16 "Unknown"), pH := .str (utf16 "Unknown"),
          organicCarbon := .str (utf16 "Unknown") } := by
    rw [getSoilData_of_body fixtureHost (fixtureWorldWith (.obj []) (.obj []))
      (.num 40) (.num (-89)) (.obj []) rfl rfl]
    rfl
  have hweather : (getWeather fixtureHost (fixtureWorldWith (.obj []) (.obj []))
      (.num 40) (.num (-89))).value
      = { temp := .num 0, humidity := .num 0, description := .str (utf16 "Unknown") } := by
    rw [getWeather_of_body fixtureHost (fixtureWorldWith (.obj []) (.obj []))
      (.num 40) (.num (-89)) (.obj []) rfl rfl]
    rfl
  refine ⟨hsoil, ?_, hweather, ?_⟩
  · rw [hsoil]
    intro habs
    have hpH := congrArg SoilSample.pH habs
    cases hpH
  · rw [hweather]
    intro habs
    have htemp := congrArg WeatherSnapshot.temp habs
    simp at htemp

/-- C9, amended: when the soil request is sent and answered with a JSON object
in which `soil[0].name`, `phh2o.mean[0]` and `organiccarbon.mean[0]` are all
missing, `getSoilData` returns `{ soilType: "Unknown", pH: "Unknown",
organicCarbon: "Unknown" }`; when the weather request is sent and answered with
a JSON object in which `main.temp`, `main.humidity` and
`weather[0].description` are all missing, `getWeather` returns
`{ temp: 0, humidity: 0, description: "Unknown" }`. -/
theorem enrichment_defaults_on_empty (h : Host) (w : World) (lat lon : JSVal)
    (slat slon : JSString) (hlat : render h lat = .ok slat) (hlon : render h lon = .ok slon)
    (fields : List (String × JSVal)) :
    (w.soilgrids slat slon = .body (.obj fields) →
        (((JSVal.obj fields).getField "soil").getIndex 0).getField "name" = .undefined →
        (((JSVal.obj fields).getField "phh2o").getField "mean").getIndex 0 = .undefined →
        (((JSVal.obj fields).getField "organiccarbon").getField "mean").getIndex 0 = .undefined →
        (getSoilData h w lat lon).value
          = { soilType := .str (utf16 "Unknown"), pH := .str (utf16 "Unknown"),
              organicCarbon := .str (utf16 "Unknown") })
      ∧ (w.openweather slat slon = .body (.obj fields) →
        ((JSVal.obj fields).getField "main").getField "temp" = .undefined →
        ((JSVal.obj fields).getField "main").getField "humidity" = .undefined →
        (((JSVal.obj fields).getField "weather").getIndex 0).getField "description" = .undefined →
        (getWeather h w lat lon).value
          = { temp := .num 0, humidity := .num 0, description := .str (utf16 "Unknown") }) := by
  constructor
  · intro hdata hn hp hc
    have hreq : (soilRequest h w lat lon).value = .ok (.obj fields) := by
      rw [soil_value_of_sent h w lat lon slat slon hlat hlon, hdata]; rfl
    rw [getSoilData_of_body h w lat lon _ hreq rfl, hn, hp, hc]
    rfl
  · intro hdata ht hu hd
    have hreq : (weatherRequest h w lat lon).value = .ok (.obj fields) := by
      rw [weather_value_of_sent h w lat lon slat slon hlat hlon, hdata]; rfl
    rw [getWeather_of_body h w lat lon _ hreq rfl, ht, hu, hd]
    rfl

/-- Worked example for C9: answers whose arrays are empty. -/
theorem enrichment_defaults_on_empty_witness :
    (getSoilData fixtureHost (fixtureWorldWith fixtureEmptySoilBody fixtureEmptySoilBody)
          (.num 0) (.num 0)).value
        = { soilType := .str (utf16 "Unknown"), pH := .str (utf16 "Unknown"),
            organicCarbon := .str (utf16 "Unknown") }
      ∧ (getWeather fixtureHost (fixtureWorldWith fixtureEmptyWeatherBody fixtureEmptyWeatherBody)
          (.num 0) (.num 0)).value
        = { temp := .num 0, humidity := .num 0, description := .str (utf16 "Unknown") } :=
  ⟨(enrichment_defaults_on_empty fixtureHost
      (fixtureWorldWith fixtureEmptySoilBody fixtureEmptySoilBody)
      (.num 0) (.num 0) (utf16 "0") (utf16 "0") rfl rfl _).1 rfl rfl rfl rfl,
   (enrichment_defaults_on_empty fixtureHost
      (fixtureWorldWith fixtureEmptyWeatherBody fixtureEmptyWeatherBody)
      (.num 0) (.num 0) (utf16 "0") (utf16 "0") rfl rfl _).2 rfl rfl rfl rfl⟩

/-- C8, evaluated on the code: when the first geocoding result has no
`geometry`, `getLatLon` returns `undefined`, the destructuring of line 71
throws and the handler answers 500 after the geocoding call, without reaching
the soil and weather lookups; when the `geometry` has neither `lat` nor `lng`,
`getLatLon` returns it as it is and the soil and weather services are queried
with the coordinates `undefined`. -/
theorem geocode_malformed_not_replaced :
    (getLatLon fixtureHost (fixtureWorldGeoResult (.body fixtureNoGeometryBody))
        (.str (utf16 "Springfield")) (.str (utf16 "IL"))).value = .undefined
      ∧ handler fixtureHost (fixtureWorldGeoResult (.body fixtureNoGeometryBody)) fixtureBody
        = { response :=
              { status := 500
                body := .obj [("error", .str (utf16 "Failed to get AI response"))] }
            calls := [Call.findOne (.str (utf16 "farmer@example.org")),
                      Call.geocode (utf16 "Springfield") (utf16 "IL")] }
      ∧ (getLatLon fixtureHost (fixtureWorldGeoResult (.body fixtureEmptyGeometryBody))
          (.str (utf16 "Springfield")) (.str (utf16 "IL"))).value = .obj []
      ∧ (handler fixtureHost (fixtureWorldGeoResult (.body fixtureEmptyGeometryBody))
          fixtureBody).calls
        = [Call.findOne (.str (utf16 "farmer@example.org")),
           Call.geocode (utf16 "Springfield") (utf16 "IL"),
           Call.soil (utf16 "undefined") (utf16 "undefined"),
           Call.weather (utf16 "undefined") (utf16 "undefined"),
           Call.llm (llmMessages fixturePrompt (.str (utf16 "When should I sow?")))] := by
  refine ⟨rfl, ?_, rfl, ?_⟩
  · rw [handler_of_unusable_geometry fixtureHost
      (fixtureWorldGeoResult (.body fixtureNoGeometryBody)) fixtureBody fixtureFarmer rfl rfl rfl]
    rfl
  · rw [fixture_run (fixtureWorldGeoResult (.body fixtureEmptyGeometryBody)) (.obj [])
      (utf16 "undefined") (utf16 "undefined") rfl rfl rfl rfl rfl rfl rfl]

/-- C6: whenever the system prompt is composed for a farmer profile, a soil
sample and a weather snapshot, it contains the renderings of the city, state
and crop, of the temp, humidity and description, and of the soilType, pH and
organicCarbon; once the handler has composed it, it posts this prompt as the
system message followed by the question of the request as the user message, and
it posts nothing else to the language model. -/
theorem prompt_embeds_inputs (h : Host) :
    (∀ (farmer : Farmer) (weather : WeatherSnapshot) (soil : SoilSample) (prompt : JSString),
        systemMessage h farmer weather soil = .ok prompt →
        ∀ v ∈ [farmer.city, farmer.state, farmer.crop, weather.temp, weather.humidity,
               weather.description, soil.soilType, soil.pH, soil.organicCarbon],
          ∃ text, render h v = .ok text ∧ text <:+: prompt)
      ∧ (∀ (w : World) (body : JSVal) (farmer : Farmer) (prompt : JSString),
          body.nullish = false →
          w.findOne (body.getField "email") = .found farmer →
          (getLatLon h w farmer.city farmer.state).value.nullish = false →
          systemMessage h farmer (getWeather h w ((getLatLon h w farmer.city farmer.state).value.getField "lat") ((getLatLon h w farmer.city farmer.state).value.getField "lng")).value (getSoilData h w ((getLatLon h w farmer.city farmer.state).value.getField "lat") ((getLatLon h w farmer.city farmer.state).value.getField "lng")).value = .ok prompt →
          Call.llm
              [{ role := "system", content := .str prompt },
               { role := "user", content := body.getField "question" }]
            ∈ (handler h w body).calls)
      ∧ (∀ (w : World) (body : JSVal) (messages : List Message),
          Call.llm messages ∈ (handler h w body).calls →
          ∃ farmer prompt, w.findOne (body.getField "email") = .found farmer
            ∧ systemMessage h farmer (getWeather h w ((getLatLon h w farmer.city farmer.state).value.getField "lat") ((getLatLon h w farmer.city farmer.state).value.getField "lng")).value (getSoilData h w ((getLatLon h w farmer.city farmer.state).value.getField "lat") ((getLatLon h w farmer.city farmer.state).value.getField "lng")).value = .ok prompt
            ∧ messages =
              [{ role := "system", content := .str prompt },
               { role := "user", content := body.getField "question" }]) := by
  refine ⟨?_, ?_, ?_⟩
  · intro farmer weather soil prompt hprompt v hv
    obtain ⟨city, state, crop, temp, description, humidity, soilType, pH, organicCarbon,
      h1, h2, h3, h4, h5, h6, h7, h8, h9, hp⟩ := systemMessage_ok h farmer weather soil prompt hprompt
    subst hp
    simp only [List.mem_cons, List.mem_singleton, List.not_mem_nil, or_false] at hv
    unfold promptText
    rcases hv with hv | hv | hv | hv | hv | hv | hv | hv | hv <;> subst hv
    · refine ⟨city, h1, ?_⟩
      iterate 17 apply occurs_append
      exact occurs_at_end _ _
    · refine ⟨state, h2, ?_⟩
      iterate 15 apply occurs_append
      exact occurs_at_end _ _
    · refine ⟨crop, h3, ?_⟩
      iterate 13 apply occurs_append
      exact occurs_at_end _ _
    · refine ⟨temp, h4, ?_⟩
      iterate 11 apply occurs_append
      exact occurs_at_end _ _
    · refine ⟨humidity, h6, ?_⟩
      iterate 7 apply occurs_append
      exact occurs_at_end _ _
    · refine ⟨description, h5, ?_⟩
      iterate 9 apply occurs_append
      exact occurs_at_end _ _
    · refine ⟨soilType, h7, ?_⟩
      iterate 5 apply occurs_append
      exact occurs_at_end _ _
    · refine ⟨pH, h8, ?_⟩
      iterate 3 apply occurs_append
      exact occurs_at_end _ _
    · refine ⟨organicCarbon, h9, ?_⟩
      iterate 1 apply occurs_append
      exact occurs_at_end _ _
  · intro w body farmer prompt hbody hfind hgeo hprompt
    rw [handler_of_found h w body farmer prompt hbody hfind hgeo hprompt]
    simp only [List.mem_append, List.mem_singleton]
    exact Or.inr rfl
  · intro w body messages hmem
    cases hbody : body.nullish with
    | true => simp [handler, hbody] at hmem
    | false =>
      cases hfind : w.findOne (body.getField "email") with
      | throws => simp [handler, hbody, hfind] at hmem
      | notFound => simp [handler, hbody, hfind] at hmem
      | found farmer =>
        cases hgeo : (getLatLon h w farmer.city farmer.state).value.nullish with
        | true =>
          rw [handler_of_unusable_geometry h w body farmer hbody hfind hgeo] at hmem
          simp only [List.mem_append, List.mem_singleton] at hmem
          rcases hmem with hmem | hmem
          · cases hmem
          · exact absurd hmem (llm_not_in_getLatLon _ _ _ _ _)
        | false =>
          cases hprompt : systemMessage h farmer (getWeather h w ((getLatLon h w farmer.city farmer.state).value.getField "lat") ((getLatLon h w farmer.city farmer.state).value.getField "lng")).value (getSoilData h w ((getLatLon h w farmer.city farmer.state).value.getField "lat") ((getLatLon h w farmer.city farmer.state).value.getField "lng")).value with
          | error e =>
            rw [handler_of_unrendered h w body farmer e hbody hfind hgeo hprompt] at hmem
            have hnone := llm_mem_handler_calls h w body farmer [] messages messages
              (by simpa using hmem) (Or.inl rfl)
            cases hnone.1
          | ok prompt =>
            rw [handler_of_found h w body farmer prompt hbody hfind hgeo hprompt] at hmem
            exact ⟨farmer, prompt, rfl, hprompt,
              (llm_mem_handler_calls h w body farmer _ _ _ hmem (Or.inr rfl)).2⟩

/-- Worked example for C6: the profile of Springfield, IL, growing corn, with
the temperature 21 and the pH 7.1. -/
theorem prompt_embeds_inputs_witness :
    (utf16 "Springfield" <:+: fixturePrompt ∧ utf16 "21" <:+: fixturePrompt
        ∧ utf16 "7.1" <:+: fixturePrompt)
      ∧ Call.llm
          [{ role := "system", content := .str fixturePrompt },
           { role := "user", content := .str (utf16 "When should I sow?") }]
        ∈ (handler fixtureHost fixtureWorld fixtureBody).calls := by
  have hparts := (prompt_embeds_inputs fixtureHost).1 fixtureFarmer fixtureWeather fixtureSoil
    fixturePrompt fixture_prompt
  have henrich := fixture_enrichment fixtureWorld (.num 40) (.num (-89)) (utf16 "40") (utf16 "-89")
    rfl rfl rfl rfl
  refine ⟨⟨?_, ?_, ?_⟩, ?_⟩
  · obtain ⟨text, htext, hin⟩ := hparts (.str (utf16 "Springfield")) (by simp [fixtureFarmer])
    cases htext
    exact hin
  · obtain ⟨text, htext, hin⟩ := hparts (.num 21) (by simp [fixtureWeather])
    cases htext
    exact hin
  · obtain ⟨text, htext, hin⟩ := hparts (.num 7.1) (by simp [fixtureSoil])
    rw [fixture_render_pH] at htext
    cases htext
    exact hin
  · exact (prompt_embeds_inputs fixtureHost).2.1 fixtureWorld fixtureBody fixtureFarmer
      fixturePrompt rfl rfl rfl (by
        show systemMessage fixtureHost fixtureFarmer
          (getWeather fixtureHost fixtureWorld (.num 40) (.num (-89))).value
          (getSoilData fixtureHost fixtureWorld (.num 40) (.num (-89))).value = .ok fixturePrompt
        rw [henrich.1, henrich.2]
        exact fixture_prompt)

/-- C7 fails as stated: when the message of the first choice has no `content`,
the handler still responds 200 and the `answer` of the body is `undefined`, not
a string. -/
theorem ok_response_answer_missing :
    (fixtureWorldLLM (.body fixtureNoContentBody)).groq fixturePrompt
        (.str (utf16 "When should I sow?")) = .body fixtureNoContentBody
      ∧ Call.llm (llmMessages fixturePrompt (.str (utf16 "When should I sow?")))
        ∈ (handler fixtureHost (fixtureWorldLLM (.body fixtureNoContentBody)) fixtureBody).calls
      ∧ (handler fixtureHost (fixtureWorldLLM (.body fixtureNoContentBody)) fixtureBody).response.status
        = 200
      ∧ (handler fixtureHost (fixtureWorldLLM (.body fixtureNoContentBody)) fixtureBody).response.body.getField
          "answer" = .undefined
      ∧ ∀ text : JSString,
        (handler fixtureHost (fixtureWorldLLM (.body fixtureNoContentBody)) fixtureBody).response.body.getField
          "answer" ≠ .str text := by
  have hrun := fixture_run (fixtureWorldLLM (.body fixtureNoContentBody))
    (.obj [("lat", .num 40), ("lng", .num (-89))]) (utf16 "40") (utf16 "-89")
    rfl rfl rfl rfl rfl rfl rfl
  refine ⟨rfl, ?_, ?_, ?_, ?_⟩
  · rw [hrun]; simp
  · rw [hrun]; rfl
  · rw [hrun]; rfl
  · intro text
    rw [hrun]
    intro habs
    cases habs

/-- C7, amended: every 200 response of the handler has the body
`{ answer, soil, weather }` in which `answer` is the message content of the
first choice of the language-model answer, whatever value that is, and `soil`
and `weather` are the values returned by `getSoilData` and `getWeather` for this
request. -/
theorem ok_response_shape (h : Host) (w : World) (body : JSVal)
    (hok : (handler h w body).response.status = 200) :
    ∃ farmer prompt data,
      w.findOne (body.getField "email") = .found farmer
        ∧ systemMessage h farmer (getWeather h w ((getLatLon h w farmer.city farmer.state).value.getField "lat") ((getLatLon h w farmer.city farmer.state).value.getField "lng")).value (getSoilData h w ((getLatLon h w farmer.city farmer.state).value.getField "lat") ((getLatLon h w farmer.city farmer.state).value.getField "lng")).value = .ok prompt
        ∧ w.groq prompt (body.getField "question") = .body data
        ∧ (handler h w body).response.body =
            .obj [("answer",
                    (((data.getField "choices").getIndex 0).getField "message").getField "content"),
                  ("soil", (getSoilData h w ((getLatLon h w farmer.city farmer.state).value.getField "lat") ((getLatLon h w farmer.city farmer.state).value.getField "lng")).value.toJS),
                  ("weather", (getWeather h w ((getLatLon h w farmer.city farmer.state).value.getField "lat") ((getLatLon h w farmer.city farmer.state).value.getField "lng")).value.toJS)] := by
  cases hbody : body.nullish with
  | true => simp [handler, hbody, failureResponse] at hok
  | false =>
    cases hfind : w.findOne (body.getField "email") with
    | throws => simp [handler, hbody, hfind, failureResponse] at hok
    | notFound => simp [handler, hbody, hfind, notFoundResponse] at hok
    | found farmer =>
      cases hgeo : (getLatLon h w farmer.city farmer.state).value.nullish with
      | true =>
        rw [handler_of_unusable_geometry h w body farmer hbody hfind hgeo] at hok
        simp [failureResponse] at hok
      | false =>
        cases hprompt : systemMessage h farmer (getWeather h w ((getLatLon h w farmer.city farmer.state).value.getField "lat") ((getLatLon h w farmer.city farmer.state).value.getField "lng")).value (getSoilData h w ((getLatLon h w farmer.city farmer.state).value.getField "lat") ((getLatLon h w farmer.city farmer.state).value.getField "lng")).value with
        | error e =>
          rw [handler_of_unrendered h w body farmer e hbody hfind hgeo hprompt] at hok
          simp [failureResponse] at hok
        | ok prompt =>
          rw [handler_of_found h w body farmer prompt hbody hfind hgeo hprompt] at hok ⊢
          cases hres : w.groq prompt (body.getField "question") with
          | fetchThrows =>
            simp [hres, FetchResult.json, bind, Except.bind, failureResponse] at hok
          | parseThrows =>
            simp [hres, FetchResult.json, bind, Except.bind, failureResponse] at hok
          | body data =>
            cases hans : answerOf data with
            | error e =>
              simp [hres, FetchResult.json, bind, Except.bind, hans, failureResponse] at hok
            | ok answer =>
              refine ⟨farmer, prompt, data, rfl, hprompt, hres, ?_⟩
              simp only [FetchResult.json, bind, Except.bind, hans, okResponse]
              rw [answerOf_ok data answer hans]

/-- Worked example for C7: the run in which every service answers. -/
theorem ok_response_shape_witness :
    handler fixtureHost fixtureWorld fixtureBody
        = { response :=
              { status := 200
                body := .obj [("answer", .str (utf16 "Sow after the rain.")),
                              ("soil", .obj [("soilType", .str (utf16 "Clay")), ("pH", .num 7.1),
                                             ("organicCarbon", .num 2.4)]),
                              ("weather", .obj [("temp", .num 21), ("humidity", .num 64),
                                                ("description", .str (utf16 "light rain"))])] }
            calls :=
              [Call.findOne (.str (utf16 "farmer@example.org")),
               Call.geocode (utf16 "Springfield") (utf16 "IL"),
               Call.soil (utf16 "40") (utf16 "-89"), Call.weather (utf16 "40") (utf16 "-89"),
               Call.llm (llmMessages fixturePrompt (.str (utf16 "When should I sow?")))] }
      ∧ ∃ farmer prompt data,
        fixtureWorld.findOne (fixtureBody.getField "email") = .found farmer
          ∧ systemMessage fixtureHost farmer (getWeather fixtureHost fixtureWorld ((getLatLon fixtureHost fixtureWorld farmer.city farmer.state).value.getField "lat") ((getLatLon fixtureHost fixtureWorld farmer.city farmer.state).value.getField "lng")).value (getSoilData fixtureHost fixtureWorld ((getLatLon fixtureHost fixtureWorld farmer.city farmer.state).value.getField "lat") ((getLatLon fixtureHost fixtureWorld farmer.city farmer.state).value.getField "lng")).value = .ok prompt
          ∧ fixtureWorld.groq prompt (fixtureBody.getField "question") = .body data
          ∧ (handler fixtureHost fixtureWorld fixtureBody).response.body =
              .obj [("answer",
                      (((data.getField "choices").getIndex 0).getField "message").getField "content"),
                    ("soil", (getSoilData fixtureHost fixtureWorld ((getLatLon fixtureHost fixtureWorld farmer.city farmer.state).value.getField "lat") ((getLatLon fixtureHost fixtureWorld farmer.city farmer.state).value.getField "lng")).value.toJS),
                    ("weather", (getWeather fixtureHost fixtureWorld ((getLatLon fixtureHost fixtureWorld farmer.city farmer.state).value.getField "lat") ((getLatLon fixtureHost fixtureWorld farmer.city farmer.state).value.getField "lng")).value.toJS)] := by
  have hrun := fixture_run fixtureWorld
    (.obj [("lat", .num 40), ("lng", .num (-89))]) (utf16 "40") (utf16 "-89")
    rfl rfl rfl rfl rfl rfl rfl
  have hstatus : (handler fixtureHost fixtureWorld fixtureBody).response.status = 200 := by
    rw [hrun]; rfl
  exact ⟨by rw [hrun]; rfl, ok_response_shape fixtureHost fixtureWorld fixtureBody hstatus⟩
end ChatRoutes
